import Mathlib

/-!
Verification of the Beaglebone gripper PRU data-acquisition bridge
(`agents/hwp_gripper/pru/BeagleboneGripper.c`, `GripperEncoder.c`,
`LimitSwitches.c`).

The host program drains double-buffered sample packets published by two
real-time producers (an encoder sampler on PRU0, a limit-switch sampler on
PRU1) through a shared memory region, batches them, and dispatches them as
UDP datagrams.  This file gives a shallow embedding of the shared-memory
data model, the host acquisition loop of `BeagleboneGripper.c:main`, and the
producer loop bodies of `GripperEncoder.c:main` and `LimitSwitches.c:main`,
and proves the stated handoff, staleness and framing properties.

Machine integers are modelled as `Nat` (all the quantities involved are
non-negative counters, flags and bitmasks; no arithmetic in the modelled
code can overflow its 32-bit container other than the hardware tick counter,
which is read, never computed with).  `clock_t` values are modelled as `Int`.
-/

/-! ## Constants (from the `#define`s of the C sources) -/

/-- `ENCODER_COUNTER_SIZE`: samples per encoder buffer. -/
def ENCODER_COUNTER_SIZE : Nat := 120

/-- `ENCODER_PACKETS_TO_SEND`: encoder send-batch size. -/
def ENCODER_PACKETS_TO_SEND : Nat := 1

/-- `LIMIT_PACKETS_TO_SEND`: limit send-batch size. -/
def LIMIT_PACKETS_TO_SEND : Nat := 1

/-- `ERROR_PACKETS_TO_SEND`: error send-batch size. -/
def ERROR_PACKETS_TO_SEND : Nat := 1

/-- `ENCODER_TIMEOUT`: encoder staleness threshold, in seconds. -/
def ENCODER_TIMEOUT : Int := 10

/-- POSIX mandates `CLOCKS_PER_SEC = 1000000`; the staleness comparison
`((double)(current_time - encoder_time))/CLOCKS_PER_SEC > ENCODER_TIMEOUT`
is modelled exactly as `current_time - encoder_time > ENCODER_TIMEOUT *
CLOCKS_PER_SEC` (the `double` division is exact at these magnitudes). -/
def CLOCKS_PER_SEC : Int := 1000000

/-- `ENCODER_TIMEOUT_FLAG`: the `type` tag marking a timeout packet as an
encoder timeout. -/
def ENCODER_TIMEOUT_FLAG : Nat := 1

/-- `ENCODER_HEADER` from `GripperEncoder.c`. -/
def ENCODER_HEADER : Nat := 0xBAD0

/-- `LIMIT_HEADER` from `LimitSwitches.c`. -/
def LIMIT_HEADER : Nat := 0xF00D

/-- `pru_mask` of `GripperEncoder.c`: input bits 0..5. -/
def encoder_pru_mask : Nat :=
  (1 <<< 0) ||| (1 <<< 1) ||| (1 <<< 2) ||| (1 <<< 3) ||| (1 <<< 4) ||| (1 <<< 5)

/-- `pru_mask` of `LimitSwitches.c`: input bits 8..13. -/
def limit_pru_mask : Nat :=
  (1 <<< 8) ||| (1 <<< 9) ||| (1 <<< 10) ||| (1 <<< 11) ||| (1 <<< 12) ||| (1 <<< 13)

/-! ## Packet structures -/

/-- `struct EncoderInfo`: header plus three parallel arrays of
`ENCODER_COUNTER_SIZE` fields (clock tick, overflow count observed at that
tick, input-state bitmask).  The arrays are modelled as lists; the length
`ENCODER_COUNTER_SIZE` is tracked by `EncoderInfo.WF`. -/
structure EncoderInfo where
  header : Nat
  clock : List Nat
  clock_overflow : List Nat
  state : List Nat
deriving DecidableEq, Repr

/-- Well-formedness of an encoder buffer: the three sample arrays have the
declared fixed length `ENCODER_COUNTER_SIZE`. -/
def EncoderInfo.WF (e : EncoderInfo) : Prop :=
  e.clock.length = ENCODER_COUNTER_SIZE ∧
  e.clock_overflow.length = ENCODER_COUNTER_SIZE ∧
  e.state.length = ENCODER_COUNTER_SIZE

instance (e : EncoderInfo) : Decidable e.WF := by
  unfold EncoderInfo.WF; infer_instance

/-- `struct LimitInfo`: one event per buffer. -/
structure LimitInfo where
  header : Nat
  clock : Nat
  clock_overflow : Nat
  state : Nat
deriving DecidableEq, Repr

/-- `struct ErrorInfo`. -/
structure ErrorInfo where
  header : Nat
  error_code : Nat
deriving DecidableEq, Repr

/-- `struct TimeoutInfo`. -/
structure TimeoutInfo where
  header : Nat
  type : Nat
deriving DecidableEq, Repr

/-- The all-zero encoder buffer (result of `memset(..., 0, sizeof)`). -/
def zeroEncoder : EncoderInfo :=
  { header := 0
    clock := List.replicate ENCODER_COUNTER_SIZE 0
    clock_overflow := List.replicate ENCODER_COUNTER_SIZE 0
    state := List.replicate ENCODER_COUNTER_SIZE 0 }

/-- The all-zero limit buffer. -/
def zeroLimit : LimitInfo := { header := 0, clock := 0, clock_overflow := 0, state := 0 }

/-- The all-zero error buffer. -/
def zeroError : ErrorInfo := { header := 0, error_code := 0 }

instance : Inhabited EncoderInfo := ⟨zeroEncoder⟩

instance : Inhabited LimitInfo := ⟨zeroLimit⟩

instance : Inhabited ErrorInfo := ⟨zeroError⟩

/-! ## Double-buffer slots

Each channel's buffer pair (`encoder_packets[0..1]` etc.) is a pair; `slotGet`
is the checked two-slot array access, `slotGetD` the access as performed by
the C code (whose fallback branch is the out-of-range dereference — shown
unreachable under the ready-index invariant in the bounds theorem below). -/

/-- Checked access into a two-slot double buffer. -/
def slotGet (p : α × α) : Nat → Option α
  | 0 => some p.1
  | 1 => some p.2
  | _ => none

/-- Two-slot access as the C code performs it (`packets[i]`); out-of-range
reads fall back to `default`, standing for the arbitrary value an
out-of-bounds C dereference would yield. -/
def slotGetD [Inhabited α] (p : α × α) (i : Nat) : α := (slotGet p i).getD default

/-- Write to a slot of a two-slot double buffer (out-of-range writes are
dropped; they never occur under the producer's slot invariant). -/
def slotSet (p : α × α) (i : Nat) (v : α) : α × α :=
  match i with
  | 0 => (v, p.2)
  | 1 => (p.1, v)
  | _ => p

/-! ## Shared Telemetry Region -/

/-- The fixed-layout PRU shared memory region, as mapped by the host at
offsets `ON_OFFSET`, `OVERFLOW_OFFSET`, `ENCODER_READY_OFFSET`,
`ENCODER_OFFSET`, `LIMIT_READY_OFFSET`, `LIMIT_OFFSET`,
`ERROR_READY_OFFSET`, `ERROR_OFFSET`. -/
structure SharedRegion where
  on_flag : Nat
  clock_overflow : Nat
  encoder_ready : Nat
  encoder_packets : EncoderInfo × EncoderInfo
  limit_ready : Nat
  limit_packets : LimitInfo × LimitInfo
  error_ready : Nat
  error_packets : ErrorInfo × ErrorInfo
deriving DecidableEq, Repr

/-- Host-side initialization of the shared region,
`BeagleboneGripper.c:135-144`: `memset` of `encoder_packets[0]`,
`encoder_packets[1]`, `limit_packets[0]`, `limit_packets[1]` and
`error_packets[0]` (slot 1 of the error pair is NOT cleared), then the
three ready flags and the run flag are set to 0.  `*clock_overflow` is not
written here (it is zeroed by the encoder producer's own startup). -/
def hostInit (s : SharedRegion) : SharedRegion :=
  { s with
    encoder_packets := (zeroEncoder, zeroEncoder)
    limit_packets := (zeroLimit, zeroLimit)
    error_packets := (zeroError, s.error_packets.2)
    encoder_ready := 0
    limit_ready := 0
    error_ready := 0
    on_flag := 0 }

/-! ## CLI argument check -/

/-- Outcome of `main`'s argument-arity check. -/
inductive ArgOutcome where
  | proceed : ArgOutcome
  | usageExit (status : Nat) : ArgOutcome
deriving DecidableEq, Repr

/-- `BeagleboneGripper.c:111-115`: `if (argc != 5) { printf(Usage...);
return 1; }` — `usageExit` carries the returned status and implies the
usage message was printed. -/
def argCheck (argc : Nat) : ArgOutcome :=
  if argc ≠ 5 then .usageExit 1 else .proceed

/-! ## Host state and the acquisition loop

`BeagleboneGripper.c:186-246`.  The host-local batch arrays
(`encoder_to_send[ENCODER_PACKETS_TO_SEND]` etc.) are modelled as lists of
the declared length; `encoder_index`, `limit_index`, `error_index` are the
batch fill counts; `encoder_time` is the staleness clock.  Network output
(`sendto`) is modelled as appending the dispatched payload to the `sent`
trace of a `LoopState`. -/

/-- Host-local state of `main`'s acquisition loop. -/
structure HostState where
  encoder_to_send : List EncoderInfo
  limit_to_send : List LimitInfo
  error_to_send : List ErrorInfo
  timeout_packet : TimeoutInfo
  encoder_index : Nat
  limit_index : Nat
  error_index : Nat
  encoder_time : Int
deriving DecidableEq, Repr

/-- One UDP datagram payload, as handed to `sendto`: the batch array for a
data channel (`sizeof(encoder_to_send)` covers the whole array), or the
single timeout record. -/
inductive Packet where
  | encoder : List EncoderInfo → Packet
  | limit : List LimitInfo → Packet
  | error : List ErrorInfo → Packet
  | timeout : TimeoutInfo → Packet
deriving DecidableEq, Repr

/-- Combined state threaded through one acquisition-loop iteration:
shared region, host locals, and the trace of datagrams sent so far. -/
structure LoopState where
  s : SharedRegion
  h : HostState
  sent : List Packet
deriving DecidableEq, Repr

/-- `BeagleboneGripper.c:196-202`: encoder drain.  If `*encoder_ready != 0`,
copy `encoder_packets[*encoder_ready - 1]` into
`encoder_to_send[encoder_index]`, increment `encoder_index`, acknowledge by
resetting `*encoder_ready` to 0, and refresh the staleness clock
`encoder_time` with this iteration's `current_time`. -/
def drainEncoder (t : Int) (st : LoopState) : LoopState :=
  if st.s.encoder_ready ≠ 0 then
    let offset := st.s.encoder_ready - 1
    let buf := slotGetD st.s.encoder_packets offset
    { st with
      s := { st.s with encoder_ready := 0 }
      h := { st.h with
        encoder_to_send := st.h.encoder_to_send.set st.h.encoder_index buf
        encoder_index := st.h.encoder_index + 1
        encoder_time := t } }
  else st

/-- `BeagleboneGripper.c:204-210`: limit drain (the `printf` of the state
word is console-only and not modelled). -/
def drainLimit (st : LoopState) : LoopState :=
  if st.s.limit_ready ≠ 0 then
    let offset := st.s.limit_ready - 1
    let buf := slotGetD st.s.limit_packets offset
    { st with
      s := { st.s with limit_ready := 0 }
      h := { st.h with
        limit_to_send := st.h.limit_to_send.set st.h.limit_index buf
        limit_index := st.h.limit_index + 1 } }
  else st

/-- `BeagleboneGripper.c:212-217`: error drain. -/
def drainError (st : LoopState) : LoopState :=
  if st.s.error_ready ≠ 0 then
    let offset := st.s.error_ready - 1
    let buf := slotGetD st.s.error_packets offset
    { st with
      s := { st.s with error_ready := 0 }
      h := { st.h with
        error_to_send := st.h.error_to_send.set st.h.error_index buf
        error_index := st.h.error_index + 1 } }
  else st

/-- `BeagleboneGripper.c:219-223`: if the encoder batch is full
(`encoder_index == ENCODER_PACKETS_TO_SEND`), send the whole batch array as
one datagram and reset the fill count. -/
def dispatchEncoder (st : LoopState) : LoopState :=
  if st.h.encoder_index = ENCODER_PACKETS_TO_SEND then
    { st with
      sent := st.sent ++ [Packet.encoder st.h.encoder_to_send]
      h := { st.h with encoder_index := 0 } }
  else st

/-- `BeagleboneGripper.c:225-230`: limit batch dispatch. -/
def dispatchLimit (st : LoopState) : LoopState :=
  if st.h.limit_index = LIMIT_PACKETS_TO_SEND then
    { st with
      sent := st.sent ++ [Packet.limit st.h.limit_to_send]
      h := { st.h with limit_index := 0 } }
  else st

/-- `BeagleboneGripper.c:232-237`: error batch dispatch. -/
def dispatchError (st : LoopState) : LoopState :=
  if st.h.error_index = ERROR_PACKETS_TO_SEND then
    { st with
      sent := st.sent ++ [Packet.error st.h.error_to_send]
      h := { st.h with error_index := 0 } }
  else st

/-- `BeagleboneGripper.c:239-245`: encoder staleness check.  If the time
since the last successful encoder drain exceeds `ENCODER_TIMEOUT` seconds,
set `timeout_packet->type = ENCODER_TIMEOUT_FLAG`, send the timeout record
as one datagram, and reset the staleness clock (`encoder_time =
current_time`). -/
def timeoutCheck (t : Int) (st : LoopState) : LoopState :=
  if ENCODER_TIMEOUT * CLOCKS_PER_SEC < t - st.h.encoder_time then
    let tp := { st.h.timeout_packet with type := ENCODER_TIMEOUT_FLAG }
    { st with
      sent := st.sent ++ [Packet.timeout tp]
      h := { st.h with timeout_packet := tp, encoder_time := t } }
  else st

/-- One full body of the acquisition loop (`BeagleboneGripper.c:194-245`),
with `t` the value of `current_time = clock()` read once at the top:
drain all three channels, dispatch any full batch, then the staleness
check. -/
def loopIter (t : Int) (st : LoopState) : LoopState :=
  timeoutCheck t (dispatchError (dispatchLimit (dispatchEncoder
    (drainError (drainLimit (drainEncoder t st))))))

/-- The acquisition loop `while (*on != 1) { ... }`
(`BeagleboneGripper.c:193`).  The environment supplies, for each iteration,
the asynchronous shared-region writes performed by the producers (and the
out-of-band setter of the run flag) since the last check, together with the
`clock()` value of the iteration.  Returns `some` of the final state when
the loop exits (run flag observed equal to 1), `none` if the environment
trace runs out first (the loop is still spinning). -/
def runLoop : List ((SharedRegion → SharedRegion) × Int) → LoopState → Option LoopState
  | [], _ => none
  | (f, t) :: rest, st =>
    let s' := f st.s
    if s'.on_flag = 1 then some { st with s := s' }
    else runLoop rest (loopIter t { st with s := s' })

/-- Post-loop teardown actions, in program order. -/
inductive TeardownAction where
  | waitEvent : TeardownAction
  | disablePRU (n : Nat) : TeardownAction
  | exitPruss : TeardownAction
deriving DecidableEq, Repr

/-- `BeagleboneGripper.c:248-254`: after the loop, if the run flag reads 1,
wait for the producers' completion interrupt (`prussdrv_pru_wait_event`)
and only then disable both PRUs and tear down the driver. -/
def teardownOf (s : SharedRegion) : List TeardownAction :=
  if s.on_flag = 1 then
    [.waitEvent, .disablePRU 1, .disablePRU 0, .exitPruss]
  else []

/-- All three send-batches are empty (no partially filled batch pending). -/
def BatchEmpty (h : HostState) : Prop :=
  h.encoder_index = 0 ∧ h.limit_index = 0 ∧ h.error_index = 0

instance (h : HostState) : Decidable (BatchEmpty h) := by
  unfold BatchEmpty; infer_instance

/-! ## Producers

`GripperEncoder.c:main` (PRU0) and `LimitSwitches.c:main` (PRU1).  Each
producer's loop body is embedded as a step function on its view of the
shared region plus its local slot/index bookkeeping; the hardware inputs of
one pass (IEP counter value, overflow status bit, the `__R31` input
register) are an explicit input record. -/

/-- Encoder producer's view of the state it reads and writes:
the shared `counter_overflow` and `encoder_ready` words, the shared buffer
pair, and its local `packet` (active slot) and `index` (sample position). -/
structure EncState where
  counter_overflow : Nat
  encoder_ready : Nat
  packets : EncoderInfo × EncoderInfo
  packet : Nat
  index : Nat
deriving DecidableEq, Repr

/-- Hardware inputs for one pass of the encoder loop.  `stsAtCheck` is the
IEP overflow status bit as read by the `if (*IEP_TMR_GLB_STS & 1)` check
(line 82); `stsAtSample` is the fresh read of the same register at line 88
(after a set bit has been cleared, a new overflow may already be pending). -/
structure EncInput where
  stsAtCheck : Bool
  stsAtSample : Bool
  cnt : Nat
  r31 : Nat
deriving DecidableEq, Repr

/-- Write one sample (tick, overflow field, state) at position `i` of an
encoder buffer (`GripperEncoder.c:87-89`). -/
def writeSample (e : EncoderInfo) (i c ov st : Nat) : EncoderInfo :=
  { e with
    clock := e.clock.set i c
    clock_overflow := e.clock_overflow.set i ov
    state := e.state.set i st }

/-- One pass of the encoder sampling loop (`GripperEncoder.c:81-98`):
if the overflow status bit is set, increment the shared overflow counter
and clear the bit; record the sample (folding `*counter_overflow +
(*IEP_TMR_GLB_STS & 1)` into the per-sample overflow field); advance
`index`; on completing sample `ENCODER_COUNTER_SIZE`, publish by setting
`*encoder_ready = packet + 1` and flip the active slot
(`packet = (packet ^ 1) & 1`). -/
def encStep (s : EncState) (inp : EncInput) : EncState :=
  let co := if inp.stsAtCheck then s.counter_overflow + 1 else s.counter_overflow
  let pending : Nat := if inp.stsAtSample then 1 else 0
  let buf := writeSample (slotGetD s.packets s.packet) s.index
    inp.cnt (co + pending) (inp.r31 &&& encoder_pru_mask)
  let packets := slotSet s.packets s.packet buf
  let index := s.index + 1
  if index = ENCODER_COUNTER_SIZE then
    { counter_overflow := co
      encoder_ready := s.packet + 1
      packets := packets
      packet := (s.packet ^^^ 1) &&& 1
      index := 0 }
  else
    { s with counter_overflow := co, packets := packets, index := index }

/-- Limit producer's view of the state (`counter_overflow` is read-only for
it: `LimitSwitches.c` never writes the shared overflow counter). -/
structure LimitState where
  counter_overflow : Nat
  limit_ready : Nat
  packets : LimitInfo × LimitInfo
  packet : Nat
deriving DecidableEq, Repr

/-- Hardware inputs for one pass of the limit-switch loop: the IEP overflow
status bit, the IEP counter, and the `__R31` input register. -/
structure LimitInput where
  sts : Bool
  cnt : Nat
  r31 : Nat
deriving DecidableEq, Repr

/-- `~x & mask` on the masked bits: for every bit of `mask`, the complement
of the corresponding bit of `x`. -/
def maskedNot (x mask : Nat) : Nat := (x &&& mask) ^^^ mask

/-- One pass of the limit-switch loop (`LimitSwitches.c:69-79`): if any
monitored input is low (`(~__R31 & pru_mask) != 0`), record the event into
the active slot (clock tick, `*counter_overflow + (*IEP_TMR_GLB_STS & 1)`,
triggered-switch bitmask), publish by setting `*limit_ready = packet + 1`,
and flip the active slot.  The shared `counter_overflow` is read but never
written. -/
def limitStep (s : LimitState) (inp : LimitInput) : LimitState :=
  let trigger := maskedNot inp.r31 limit_pru_mask
  if trigger ≠ 0 then
    let buf : LimitInfo :=
      { (slotGetD s.packets s.packet) with
        clock := inp.cnt
        clock_overflow := s.counter_overflow + (if inp.sts then 1 else 0)
        state := trigger }
    { s with
      packets := slotSet s.packets s.packet buf
      limit_ready := s.packet + 1
      packet := (s.packet ^^^ 1) &&& 1 }
  else s

/-! ## Helper lemmas about the loop phases -/

theorem drainEncoder_s_eq (t : Int) (st : LoopState) :
    (drainEncoder t st).s = { st.s with encoder_ready := 0 } := by
  unfold drainEncoder
  split
  · rfl
  · next h =>
    simp only [ne_eq, not_not] at h
    cases hs : st.s
    simp_all

theorem drainLimit_s_eq (st : LoopState) :
    (drainLimit st).s = { st.s with limit_ready := 0 } := by
  unfold drainLimit
  split
  · rfl
  · next h =>
    simp only [ne_eq, not_not] at h
    cases hs : st.s
    simp_all

theorem drainError_s_eq (st : LoopState) :
    (drainError st).s = { st.s with error_ready := 0 } := by
  unfold drainError
  split
  · rfl
  · next h =>
    simp only [ne_eq, not_not] at h
    cases hs : st.s
    simp_all

theorem dispatchEncoder_s_eq (st : LoopState) : (dispatchEncoder st).s = st.s := by
  unfold dispatchEncoder; split <;> rfl

theorem dispatchLimit_s_eq (st : LoopState) : (dispatchLimit st).s = st.s := by
  unfold dispatchLimit; split <;> rfl

theorem dispatchError_s_eq (st : LoopState) : (dispatchError st).s = st.s := by
  unfold dispatchError; split <;> rfl

theorem timeoutCheck_s_eq (t : Int) (st : LoopState) : (timeoutCheck t st).s = st.s := by
  unfold timeoutCheck; split <;> rfl

theorem drainEncoder_h_limitIdx (t : Int) (st : LoopState) :
    (drainEncoder t st).h.limit_index = st.h.limit_index := by
  unfold drainEncoder; split <;> rfl

theorem drainEncoder_h_errorIdx (t : Int) (st : LoopState) :
    (drainEncoder t st).h.error_index = st.h.error_index := by
  unfold drainEncoder; split <;> rfl

theorem drainEncoder_sent (t : Int) (st : LoopState) :
    (drainEncoder t st).sent = st.sent := by
  unfold drainEncoder; split <;> rfl

theorem drainEncoder_encIdx (t : Int) (st : LoopState) :
    (drainEncoder t st).h.encoder_index =
      if st.s.encoder_ready ≠ 0 then st.h.encoder_index + 1 else st.h.encoder_index := by
  unfold drainEncoder; split <;> simp_all

theorem drainLimit_h_encoder_to_send (st : LoopState) :
    (drainLimit st).h.encoder_to_send = st.h.encoder_to_send := by
  unfold drainLimit; split <;> rfl

theorem drainLimit_h_encIdx (st : LoopState) :
    (drainLimit st).h.encoder_index = st.h.encoder_index := by
  unfold drainLimit; split <;> rfl

theorem drainLimit_h_errorIdx (st : LoopState) :
    (drainLimit st).h.error_index = st.h.error_index := by
  unfold drainLimit; split <;> rfl

theorem drainLimit_h_limitIdx (st : LoopState) :
    (drainLimit st).h.limit_index =
      if st.s.limit_ready ≠ 0 then st.h.limit_index + 1 else st.h.limit_index := by
  unfold drainLimit; split <;> simp_all

theorem drainLimit_sent (st : LoopState) : (drainLimit st).sent = st.sent := by
  unfold drainLimit; split <;> rfl

theorem drainError_h_encoder_to_send (st : LoopState) :
    (drainError st).h.encoder_to_send = st.h.encoder_to_send := by
  unfold drainError; split <;> rfl

theorem drainError_h_encIdx (st : LoopState) :
    (drainError st).h.encoder_index = st.h.encoder_index := by
  unfold drainError; split <;> rfl

theorem drainError_h_limitIdx (st : LoopState) :
    (drainError st).h.limit_index = st.h.limit_index := by
  unfold drainError; split <;> rfl

theorem drainError_h_errorIdx (st : LoopState) :
    (drainError st).h.error_index =
      if st.s.error_ready ≠ 0 then st.h.error_index + 1 else st.h.error_index := by
  unfold drainError; split <;> simp_all

theorem drainError_sent (st : LoopState) : (drainError st).sent = st.sent := by
  unfold drainError; split <;> rfl

theorem dispatchEncoder_encIdx (st : LoopState) :
    (dispatchEncoder st).h.encoder_index =
      if st.h.encoder_index = ENCODER_PACKETS_TO_SEND then 0 else st.h.encoder_index := by
  unfold dispatchEncoder; split <;> simp_all

theorem dispatchEncoder_h_limitIdx (st : LoopState) :
    (dispatchEncoder st).h.limit_index = st.h.limit_index := by
  unfold dispatchEncoder; split <;> rfl

theorem dispatchEncoder_h_errorIdx (st : LoopState) :
    (dispatchEncoder st).h.error_index = st.h.error_index := by
  unfold dispatchEncoder; split <;> rfl

theorem dispatchLimit_h_encIdx (st : LoopState) :
    (dispatchLimit st).h.encoder_index = st.h.encoder_index := by
  unfold dispatchLimit; split <;> rfl

theorem dispatchLimit_limitIdx (st : LoopState) :
    (dispatchLimit st).h.limit_index =
      if st.h.limit_index = LIMIT_PACKETS_TO_SEND then 0 else st.h.limit_index := by
  unfold dispatchLimit; split <;> simp_all

theorem dispatchLimit_h_errorIdx (st : LoopState) :
    (dispatchLimit st).h.error_index = st.h.error_index := by
  unfold dispatchLimit; split <;> rfl

theorem dispatchError_h_encIdx (st : LoopState) :
    (dispatchError st).h.encoder_index = st.h.encoder_index := by
  unfold dispatchError; split <;> rfl

theorem dispatchError_h_limitIdx (st : LoopState) :
    (dispatchError st).h.limit_index = st.h.limit_index := by
  unfold dispatchError; split <;> rfl

theorem dispatchError_errorIdx (st : LoopState) :
    (dispatchError st).h.error_index =
      if st.h.error_index = ERROR_PACKETS_TO_SEND then 0 else st.h.error_index := by
  unfold dispatchError; split <;> simp_all

theorem timeoutCheck_h_encIdx (t : Int) (st : LoopState) :
    (timeoutCheck t st).h.encoder_index = st.h.encoder_index := by
  unfold timeoutCheck; split <;> rfl

theorem timeoutCheck_h_limitIdx (t : Int) (st : LoopState) :
    (timeoutCheck t st).h.limit_index = st.h.limit_index := by
  unfold timeoutCheck; split <;> rfl

theorem timeoutCheck_h_errorIdx (t : Int) (st : LoopState) :
    (timeoutCheck t st).h.error_index = st.h.error_index := by
  unfold timeoutCheck; split <;> rfl

theorem dispatchLimit_sent_mono (st : LoopState) (p : Packet) (hp : p ∈ st.sent) :
    p ∈ (dispatchLimit st).sent := by
  unfold dispatchLimit; split
  · exact List.mem_append_left _ hp
  · exact hp

theorem dispatchError_sent_mono (st : LoopState) (p : Packet) (hp : p ∈ st.sent) :
    p ∈ (dispatchError st).sent := by
  unfold dispatchError; split
  · exact List.mem_append_left _ hp
  · exact hp

theorem timeoutCheck_sent_mono (t : Int) (st : LoopState) (p : Packet) (hp : p ∈ st.sent) :
    p ∈ (timeoutCheck t st).sent := by
  unfold timeoutCheck; split
  · exact List.mem_append_left _ hp
  · exact hp

/-! ## Initialization (C7) -/

/-- A concrete pre-init shared region with a nonzero overflow counter and a
nonzero second error slot. -/
def initRegionSample : SharedRegion :=
  { on_flag := 3
    clock_overflow := 5
    encoder_ready := 2
    encoder_packets := (zeroEncoder, zeroEncoder)
    limit_ready := 1
    limit_packets := (zeroLimit, zeroLimit)
    error_ready := 2
    error_packets := ({ header := 1, error_code := 2 }, { header := 7, error_code := 9 }) }

/-- C7 counterexample: the host initialization does NOT zero all fields of
the Shared Telemetry Region.  On a region whose overflow counter is 5 and
whose error buffer slot 1 is nonzero, after `hostInit` the overflow counter
is still 5 (the host never writes `*clock_overflow`,
`BeagleboneGripper.c:135-144`) and error slot 1 is still nonzero (only
`error_packets[0]` is `memset`, line 139). -/
theorem hostInit_not_all_zero :
    (hostInit initRegionSample).clock_overflow = 5 ∧
    (hostInit initRegionSample).clock_overflow ≠ 0 ∧
    (hostInit initRegionSample).error_packets.2 ≠ zeroError := by
  decide

/-- C7 (amended): before starting the producers the host zeroes the run
flag, all three ready indices, both Encoder buffer slots, both Limit buffer
slots and Error buffer slot 0; it leaves the shared overflow counter and
Error buffer slot 1 unchanged (the overflow counter is zeroed by the
Encoder producer's own startup, `GripperEncoder.c:67`). -/
theorem hostInit_zeroes (s : SharedRegion) :
    (hostInit s).on_flag = 0 ∧
    (hostInit s).encoder_ready = 0 ∧
    (hostInit s).limit_ready = 0 ∧
    (hostInit s).error_ready = 0 ∧
    (hostInit s).encoder_packets = (zeroEncoder, zeroEncoder) ∧
    (hostInit s).limit_packets = (zeroLimit, zeroLimit) ∧
    (hostInit s).error_packets.1 = zeroError ∧
    (hostInit s).clock_overflow = s.clock_overflow ∧
    (hostInit s).error_packets.2 = s.error_packets.2 := by
  unfold hostInit
  repeat' constructor

/-! ## CLI arity (C8) -/

/-- C8 counterexample: the claim says an invocation omitting the optional
data files (argument count 3: program name, primary producer image,
secondary producer image) proceeds past the argument check; in the code
(`BeagleboneGripper.c:111`) any `argc != 5` prints the usage message and
returns 1, so arity 3 does not proceed. -/
theorem argCheck_rejects_arity_three :
    argCheck 3 ≠ ArgOutcome.proceed ∧ argCheck 3 = ArgOutcome.usageExit 1 := by
  decide

/-- C8 (amended): the argument check accepts exactly argument count 5
(program name, primary producer image, primary data file, secondary
producer image, secondary data file — the data files are in practice
mandatory); every other count prints the usage message and exits with
status 1. -/
theorem argCheck_exact_arity (argc : Nat) :
    (argCheck argc = ArgOutcome.proceed ↔ argc = 5) ∧
    (argc ≠ 5 → argCheck argc = ArgOutcome.usageExit 1) := by
  unfold argCheck
  constructor
  · constructor
    · intro h
      by_contra hne
      simp [hne] at h
    · intro h
      simp [h]
  · intro h
    simp [h]

/-- Witness for `argCheck_exact_arity` at argument counts 4 and 5. -/
theorem argCheck_exact_arity_witness :
    argCheck 4 = ArgOutcome.usageExit 1 ∧ argCheck 5 = ArgOutcome.proceed :=
  ⟨(argCheck_exact_arity 4).2 (by decide), (argCheck_exact_arity 5).1.mpr rfl⟩

/-! ## Drain protocol (C1) -/

/-- C1: for each channel (Encoder, Limit, Error), if the channel's ready
index is nonzero, the drain copies the buffer at slot `ready_index - 1`
into the next free position of the channel's send-batch
(`to_send[index]`), increments the fill count, and the same step resets
the ready index to 0; and, since the acknowledgment clears the ready flag,
draining again without an intervening producer publish is a no-op — each
published buffer is drained at most once before its ready flag is reset. -/
theorem drain_ack_once (st : LoopState) (t t' : Int) :
    (st.s.encoder_ready ≠ 0 →
      (drainEncoder t st).h.encoder_to_send =
        st.h.encoder_to_send.set st.h.encoder_index
          (slotGetD st.s.encoder_packets (st.s.encoder_ready - 1)) ∧
      (drainEncoder t st).h.encoder_index = st.h.encoder_index + 1 ∧
      (drainEncoder t st).s.encoder_ready = 0) ∧
    (st.s.limit_ready ≠ 0 →
      (drainLimit st).h.limit_to_send =
        st.h.limit_to_send.set st.h.limit_index
          (slotGetD st.s.limit_packets (st.s.limit_ready - 1)) ∧
      (drainLimit st).h.limit_index = st.h.limit_index + 1 ∧
      (drainLimit st).s.limit_ready = 0) ∧
    (st.s.error_ready ≠ 0 →
      (drainError st).h.error_to_send =
        st.h.error_to_send.set st.h.error_index
          (slotGetD st.s.error_packets (st.s.error_ready - 1)) ∧
      (drainError st).h.error_index = st.h.error_index + 1 ∧
      (drainError st).s.error_ready = 0) ∧
    drainEncoder t' (drainEncoder t st) = drainEncoder t st ∧
    drainLimit (drainLimit st) = drainLimit st ∧
    drainError (drainError st) = drainError st := by
  refine ⟨?_, ?_, ?_, ?_, ?_, ?_⟩
  · intro h
    unfold drainEncoder
    simp [h]
  · intro h
    unfold drainLimit
    simp [h]
  · intro h
    unfold drainError
    simp [h]
  · by_cases h : st.s.encoder_ready ≠ 0
    · conv_lhs => rw [drainEncoder]
      simp [drainEncoder_s_eq]
    · simp only [ne_eq, not_not] at h
      unfold drainEncoder
      simp [h]
  · by_cases h : st.s.limit_ready ≠ 0
    · conv_lhs => rw [drainLimit]
      simp [drainLimit_s_eq]
    · simp only [ne_eq, not_not] at h
      unfold drainLimit
      simp [h]
  · by_cases h : st.s.error_ready ≠ 0
    · conv_lhs => rw [drainError]
      simp [drainError_s_eq]
    · simp only [ne_eq, not_not] at h
      unfold drainError
      simp [h]

/-- A concrete loop state with all three channels ready in slot 0 and empty
send batches. -/
def drainSample : LoopState :=
  { s := { on_flag := 0
           clock_overflow := 2
           encoder_ready := 1
           encoder_packets :=
             ({ header := 0xBAD0, clock := [11], clock_overflow := [0], state := [3] },
              { header := 0xBAD0, clock := [22], clock_overflow := [1], state := [4] })
           limit_ready := 1
           limit_packets :=
             ({ header := 0xF00D, clock := 9, clock_overflow := 0, state := 0x100 },
              { header := 0xF00D, clock := 10, clock_overflow := 1, state := 0x200 })
           error_ready := 1
           error_packets := ({ header := 0xE, error_code := 4 }, { header := 0xE, error_code := 5 }) }
    h := { encoder_to_send := [zeroEncoder]
           limit_to_send := [zeroLimit]
           error_to_send := [zeroError]
           timeout_packet := { header := 0x1234, type := 0 }
           encoder_index := 0
           limit_index := 0
           error_index := 0
           encoder_time := 0 }
    sent := [] }

/-- Witness for `drain_ack_once` at the concrete state `drainSample`. -/
theorem drain_ack_once_witness :
    (drainEncoder 7 drainSample).s.encoder_ready = 0 ∧
    (drainLimit drainSample).s.limit_ready = 0 ∧
    (drainError drainSample).s.error_ready = 0 ∧
    drainEncoder 8 (drainEncoder 7 drainSample) = drainEncoder 7 drainSample :=
  ⟨((drain_ack_once drainSample 7 8).1 (by decide)).2.2,
   ((drain_ack_once drainSample 7 8).2.1 (by decide)).2.2,
   ((drain_ack_once drainSample 7 8).2.2.1 (by decide)).2.2,
   (drain_ack_once drainSample 7 8).2.2.2.1⟩

/-! ## Encoder staleness (C2) -/

/-- C2: if the time since the last successful encoder drain exceeds the
fixed threshold (`ENCODER_TIMEOUT` = 10 seconds), the staleness check
dispatches exactly one Timeout packet whose `type` is the encoder tag
`ENCODER_TIMEOUT_FLAG`, and resets the staleness clock to the current
time, so a further check at any `t'` within a full threshold interval of
`t` emits nothing; the check never touches the shared region (in
particular the run flag), so it cannot terminate the loop. -/
theorem encoder_timeout_spec (st : LoopState) (t t' : Int)
    (h : ENCODER_TIMEOUT * CLOCKS_PER_SEC < t - st.h.encoder_time) :
    (timeoutCheck t st).sent =
      st.sent ++ [Packet.timeout { header := st.h.timeout_packet.header, type := ENCODER_TIMEOUT_FLAG }] ∧
    (timeoutCheck t st).h.encoder_time = t ∧
    (timeoutCheck t st).s = st.s ∧
    (t' - t ≤ ENCODER_TIMEOUT * CLOCKS_PER_SEC →
      timeoutCheck t' (timeoutCheck t st) = timeoutCheck t st) := by
  have he : (timeoutCheck t st).h.encoder_time = t := by
    unfold timeoutCheck; simp [h]
  refine ⟨?_, he, timeoutCheck_s_eq t st, ?_⟩
  · unfold timeoutCheck
    simp [h]
  · intro h'
    have hc : ¬ ENCODER_TIMEOUT * CLOCKS_PER_SEC < t' - (timeoutCheck t st).h.encoder_time := by
      rw [he]
      generalize ENCODER_TIMEOUT * CLOCKS_PER_SEC = K at h' ⊢
      omega
    conv_lhs => rw [timeoutCheck]
    simp [hc]

/-- A concrete loop state whose staleness clock is 11 seconds old at
`t = 11000001`. -/
def staleSample : LoopState :=
  { drainSample with
    s := { drainSample.s with encoder_ready := 0, limit_ready := 0, error_ready := 0 }
    h := { drainSample.h with encoder_time := 0 } }

/-- Witness for `encoder_timeout_spec`: at `t = 11000001` (11 seconds past
the last drain) exactly one encoder-tagged timeout datagram is emitted and
the clock resets, so a check 10 seconds later emits nothing. -/
theorem encoder_timeout_spec_witness :
    (timeoutCheck 11000001 staleSample).sent =
      [Packet.timeout { header := 0x1234, type := ENCODER_TIMEOUT_FLAG }] ∧
    (timeoutCheck 11000001 staleSample).h.encoder_time = 11000001 ∧
    timeoutCheck 21000001 (timeoutCheck 11000001 staleSample) =
      timeoutCheck 11000001 staleSample :=
  ⟨(encoder_timeout_spec staleSample 11000001 21000001 (by decide)).1,
   (encoder_timeout_spec staleSample 11000001 21000001 (by decide)).2.1,
   (encoder_timeout_spec staleSample 11000001 21000001 (by decide)).2.2.2 (by decide)⟩

/-! ## Shared-region frame of the loop (C9) -/

/-- C9: over one full iteration of the acquisition loop, the only shared
fields the host writes are the three ready indices (each is 0 afterwards —
reset as drain acknowledgment if it was set, untouched if already 0); the
run flag, the overflow counter and all six sample buffers are unchanged. -/
theorem loop_shared_frame (t : Int) (st : LoopState) :
    (loopIter t st).s.on_flag = st.s.on_flag ∧
    (loopIter t st).s.clock_overflow = st.s.clock_overflow ∧
    (loopIter t st).s.encoder_packets = st.s.encoder_packets ∧
    (loopIter t st).s.limit_packets = st.s.limit_packets ∧
    (loopIter t st).s.error_packets = st.s.error_packets ∧
    (loopIter t st).s.encoder_ready = 0 ∧
    (loopIter t st).s.limit_ready = 0 ∧
    (loopIter t st).s.error_ready = 0 := by
  unfold loopIter
  simp [timeoutCheck_s_eq, dispatchError_s_eq, dispatchLimit_s_eq, dispatchEncoder_s_eq,
    drainError_s_eq, drainLimit_s_eq, drainEncoder_s_eq]

/-! ## Bounds of the drain's buffer indexing (C10) -/

/-- C10: the drains index the two-slot buffer pairs at `ready_index - 1`
with no range check; under the producer-protocol precondition that each
ready index is in {0, 1, 2}, every such access is in bounds: the checked
access returns `some` value (the out-of-range fallback branch of
`slotGetD` is unreachable) and the value the drain copies into the
send-batch is exactly that in-bounds buffer. -/
theorem drain_access_in_bounds (st : LoopState) (t : Int) :
    (st.s.encoder_ready ≤ 2 → st.s.encoder_ready ≠ 0 →
      ∃ b, slotGet st.s.encoder_packets (st.s.encoder_ready - 1) = some b ∧
        (drainEncoder t st).h.encoder_to_send =
          st.h.encoder_to_send.set st.h.encoder_index b) ∧
    (st.s.limit_ready ≤ 2 → st.s.limit_ready ≠ 0 →
      ∃ b, slotGet st.s.limit_packets (st.s.limit_ready - 1) = some b ∧
        (drainLimit st).h.limit_to_send =
          st.h.limit_to_send.set st.h.limit_index b) ∧
    (st.s.error_ready ≤ 2 → st.s.error_ready ≠ 0 →
      ∃ b, slotGet st.s.error_packets (st.s.error_ready - 1) = some b ∧
        (drainError st).h.error_to_send =
          st.h.error_to_send.set st.h.error_index b) := by
  refine ⟨?_, ?_, ?_⟩
  · intro h2 h0
    have h : st.s.encoder_ready = 1 ∨ st.s.encoder_ready = 2 := by omega
    rcases h with h | h <;>
      exact ⟨_, by rw [h]; rfl, by unfold drainEncoder; simp [h, slotGetD, slotGet]⟩
  · intro h2 h0
    have h : st.s.limit_ready = 1 ∨ st.s.limit_ready = 2 := by omega
    rcases h with h | h <;>
      exact ⟨_, by rw [h]; rfl, by unfold drainLimit; simp [h, slotGetD, slotGet]⟩
  · intro h2 h0
    have h : st.s.error_ready = 1 ∨ st.s.error_ready = 2 := by omega
    rcases h with h | h <;>
      exact ⟨_, by rw [h]; rfl, by unfold drainError; simp [h, slotGetD, slotGet]⟩

/-- Witness for `drain_access_in_bounds` at the concrete state
`drainSample` (all three ready indices equal 1). -/
theorem drain_access_in_bounds_witness :
    (∃ b, slotGet drainSample.s.encoder_packets (drainSample.s.encoder_ready - 1) = some b ∧
      (drainEncoder 3 drainSample).h.encoder_to_send =
        drainSample.h.encoder_to_send.set drainSample.h.encoder_index b) ∧
    (∃ b, slotGet drainSample.s.limit_packets (drainSample.s.limit_ready - 1) = some b ∧
      (drainLimit drainSample).h.limit_to_send =
        drainSample.h.limit_to_send.set drainSample.h.limit_index b) :=
  ⟨(drain_access_in_bounds drainSample 3).1 (by decide) (by decide),
   (drain_access_in_bounds drainSample 3).2.1 (by decide) (by decide)⟩

/-! ## Batch dispatch and byte-exact payload (C3) -/

/-- C3: whenever a channel's send-batch fill count equals its configured
batch size, the batch array is dispatched as a single datagram and the
fill count resets to 0; and, with the configured batch size of 1, the
Encoder datagram emitted by a full loop iteration that drains a (120-sample,
well-formed) encoder buffer is byte-for-byte the snapshot copied out of
shared memory by that drain. -/
theorem batch_dispatch_exact (st : LoopState) (t : Int) :
    ((st.h.encoder_index = ENCODER_PACKETS_TO_SEND →
        (dispatchEncoder st).sent = st.sent ++ [Packet.encoder st.h.encoder_to_send] ∧
        (dispatchEncoder st).h.encoder_index = 0) ∧
     (st.h.limit_index = LIMIT_PACKETS_TO_SEND →
        (dispatchLimit st).sent = st.sent ++ [Packet.limit st.h.limit_to_send] ∧
        (dispatchLimit st).h.limit_index = 0) ∧
     (st.h.error_index = ERROR_PACKETS_TO_SEND →
        (dispatchError st).sent = st.sent ++ [Packet.error st.h.error_to_send] ∧
        (dispatchError st).h.error_index = 0)) ∧
    (∀ e₀ : EncoderInfo, st.h.encoder_to_send = [e₀] →
      st.h.encoder_index = 0 →
      st.s.encoder_ready ≠ 0 →
      (slotGetD st.s.encoder_packets (st.s.encoder_ready - 1)).WF →
      Packet.encoder [slotGetD st.s.encoder_packets (st.s.encoder_ready - 1)]
          ∈ (loopIter t st).sent ∧
      (loopIter t st).h.encoder_index = 0) := by
  constructor
  · refine ⟨?_, ?_, ?_⟩
    · intro h
      unfold dispatchEncoder
      simp [h]
    · intro h
      unfold dispatchLimit
      simp [h]
    · intro h
      unfold dispatchError
      simp [h]
  · intro e₀ he hi hr _hwf
    have hts : (drainEncoder t st).h.encoder_to_send =
        [slotGetD st.s.encoder_packets (st.s.encoder_ready - 1)] := by
      unfold drainEncoder
      simp [hr, he, hi]
    have hidx : (drainEncoder t st).h.encoder_index = 1 := by
      rw [drainEncoder_encIdx]
      simp [hr, hi]
    have hts2 : (drainError (drainLimit (drainEncoder t st))).h.encoder_to_send =
        [slotGetD st.s.encoder_packets (st.s.encoder_ready - 1)] := by
      rw [drainError_h_encoder_to_send, drainLimit_h_encoder_to_send, hts]
    have hidx2 : (drainError (drainLimit (drainEncoder t st))).h.encoder_index = 1 := by
      rw [drainError_h_encIdx, drainLimit_h_encIdx, hidx]
    have hsent2 : (drainError (drainLimit (drainEncoder t st))).sent = st.sent := by
      rw [drainError_sent, drainLimit_sent, drainEncoder_sent]
    have hdisp : (dispatchEncoder (drainError (drainLimit (drainEncoder t st)))).sent =
        st.sent ++ [Packet.encoder [slotGetD st.s.encoder_packets (st.s.encoder_ready - 1)]] := by
      unfold dispatchEncoder
      simp [hidx2, ENCODER_PACKETS_TO_SEND, hts2, hsent2]
    have hdidx : (dispatchEncoder (drainError (drainLimit (drainEncoder t st)))).h.encoder_index = 0 := by
      rw [dispatchEncoder_encIdx]
      simp [hidx2, ENCODER_PACKETS_TO_SEND]
    unfold loopIter
    constructor
    · apply timeoutCheck_sent_mono
      apply dispatchError_sent_mono
      apply dispatchLimit_sent_mono
      rw [hdisp]
      exact List.mem_append_right _ (List.mem_singleton.mpr rfl)
    · rw [timeoutCheck_h_encIdx, dispatchError_h_encIdx, dispatchLimit_h_encIdx, hdidx]

/-- A concrete loop state whose ready encoder slot holds a full 120-sample
buffer. -/
def dispatchSample : LoopState :=
  { drainSample with
    s := { drainSample.s with
      encoder_packets := ({ zeroEncoder with header := ENCODER_HEADER }, zeroEncoder) } }

/-- Witness for `batch_dispatch_exact`: one iteration on `dispatchSample`
emits the drained 120-sample snapshot verbatim and leaves the fill count 0. -/
theorem batch_dispatch_exact_witness :
    Packet.encoder [slotGetD dispatchSample.s.encoder_packets (dispatchSample.s.encoder_ready - 1)]
        ∈ (loopIter 0 dispatchSample).sent ∧
    (loopIter 0 dispatchSample).h.encoder_index = 0 :=
  (batch_dispatch_exact dispatchSample 0).2 zeroEncoder (by decide) (by decide) (by decide)
    (by decide)

/-! ## Producer step characterizations -/

theorem encStep_counter (s : EncState) (inp : EncInput) :
    (encStep s inp).counter_overflow =
      if inp.stsAtCheck then s.counter_overflow + 1 else s.counter_overflow := by
  unfold encStep
  by_cases hc : s.index + 1 = ENCODER_COUNTER_SIZE <;> simp [hc]

theorem encStep_packet_eq (s : EncState) (inp : EncInput) :
    (encStep s inp).packet =
      if s.index + 1 = ENCODER_COUNTER_SIZE then (s.packet ^^^ 1) &&& 1 else s.packet := by
  unfold encStep
  by_cases hc : s.index + 1 = ENCODER_COUNTER_SIZE <;> simp [hc]

theorem encStep_ready_eq (s : EncState) (inp : EncInput) :
    (encStep s inp).encoder_ready =
      if s.index + 1 = ENCODER_COUNTER_SIZE then s.packet + 1 else s.encoder_ready := by
  unfold encStep
  by_cases hc : s.index + 1 = ENCODER_COUNTER_SIZE <;> simp [hc]

theorem encStep_packets_eq (s : EncState) (inp : EncInput) :
    (encStep s inp).packets =
      slotSet s.packets s.packet
        (writeSample (slotGetD s.packets s.packet) s.index inp.cnt
          ((if inp.stsAtCheck then s.counter_overflow + 1 else s.counter_overflow) +
            (if inp.stsAtSample then 1 else 0))
          (inp.r31 &&& encoder_pru_mask)) := by
  unfold encStep
  by_cases hc : s.index + 1 = ENCODER_COUNTER_SIZE <;> simp [hc]

theorem limitStep_counter (ls : LimitState) (li : LimitInput) :
    (limitStep ls li).counter_overflow = ls.counter_overflow := by
  unfold limitStep
  by_cases hc : maskedNot li.r31 limit_pru_mask ≠ 0 <;> simp [hc]

theorem limitStep_of_no_trigger (ls : LimitState) (li : LimitInput)
    (hc : maskedNot li.r31 limit_pru_mask = 0) : limitStep ls li = ls := by
  unfold limitStep
  simp [hc]

theorem limitStep_packet_eq (ls : LimitState) (li : LimitInput)
    (hc : maskedNot li.r31 limit_pru_mask ≠ 0) :
    (limitStep ls li).packet = (ls.packet ^^^ 1) &&& 1 := by
  unfold limitStep
  simp [hc]

theorem limitStep_ready_eq (ls : LimitState) (li : LimitInput)
    (hc : maskedNot li.r31 limit_pru_mask ≠ 0) :
    (limitStep ls li).limit_ready = ls.packet + 1 := by
  unfold limitStep
  simp [hc]

theorem limitStep_packets_eq (ls : LimitState) (li : LimitInput)
    (hc : maskedNot li.r31 limit_pru_mask ≠ 0) :
    (limitStep ls li).packets =
      slotSet ls.packets ls.packet
        { (slotGetD ls.packets ls.packet) with
          clock := li.cnt
          clock_overflow := ls.counter_overflow + (if li.sts then 1 else 0)
          state := maskedNot li.r31 limit_pru_mask } := by
  unfold limitStep
  simp [hc]

theorem slotGet_slotSet_self (p : α × α) (i : Nat) (v : α) (h : i ≤ 1) :
    slotGet (slotSet p i v) i = some v := by
  have h01 : i = 0 ∨ i = 1 := by omega
  rcases h01 with h0 | h1 <;> subst_vars <;> rfl

theorem xor_one_and_one (n : Nat) (h : n ≤ 1) : (n ^^^ 1) &&& 1 = 1 - n := by
  have h01 : n = 0 ∨ n = 1 := by omega
  rcases h01 with h0 | h1 <;> subst_vars <;> rfl

/-! ## Producer publish protocol (C5) -/

/-- C5: each producer publishes a completed buffer by setting its ready
index to (active slot + 1), and the slot the new ready index designates is
exactly the slot holding the just-written sample data; the active slot
stays in {0, 1} and the ready index in {0, 1, 2}, and the active slot
flips on every completion (strict 0,1,0,1,… alternation) and only on
completion. -/
theorem producer_publish_protocol (s : EncState) (inp : EncInput)
    (ls : LimitState) (li : LimitInput) :
    ((s.packet ≤ 1 → (encStep s inp).packet ≤ 1) ∧
     (s.packet ≤ 1 → s.encoder_ready ≤ 2 → (encStep s inp).encoder_ready ≤ 2) ∧
     (s.index + 1 = ENCODER_COUNTER_SIZE →
        (encStep s inp).encoder_ready = s.packet + 1 ∧
        (s.packet ≤ 1 →
          (encStep s inp).packet = 1 - s.packet ∧
          slotGet (encStep s inp).packets s.packet =
            some (writeSample (slotGetD s.packets s.packet) s.index inp.cnt
              ((if inp.stsAtCheck then s.counter_overflow + 1 else s.counter_overflow) +
                (if inp.stsAtSample then 1 else 0))
              (inp.r31 &&& encoder_pru_mask)))) ∧
     (s.index + 1 ≠ ENCODER_COUNTER_SIZE →
        (encStep s inp).encoder_ready = s.encoder_ready ∧
        (encStep s inp).packet = s.packet)) ∧
    ((ls.packet ≤ 1 → (limitStep ls li).packet ≤ 1) ∧
     (ls.packet ≤ 1 → ls.limit_ready ≤ 2 → (limitStep ls li).limit_ready ≤ 2) ∧
     (maskedNot li.r31 limit_pru_mask ≠ 0 →
        (limitStep ls li).limit_ready = ls.packet + 1 ∧
        (ls.packet ≤ 1 →
          (limitStep ls li).packet = 1 - ls.packet ∧
          slotGet (limitStep ls li).packets ls.packet =
            some { (slotGetD ls.packets ls.packet) with
                   clock := li.cnt
                   clock_overflow := ls.counter_overflow + (if li.sts then 1 else 0)
                   state := maskedNot li.r31 limit_pru_mask })) ∧
     (maskedNot li.r31 limit_pru_mask = 0 → limitStep ls li = ls)) := by
  refine ⟨⟨?_, ?_, ?_, ?_⟩, ?_, ?_, ?_, limitStep_of_no_trigger ls li⟩
  · intro hp
    rw [encStep_packet_eq]
    split
    · rw [xor_one_and_one s.packet hp]
      omega
    · exact hp
  · intro hp hr
    rw [encStep_ready_eq]
    split
    · omega
    · exact hr
  · intro hc
    refine ⟨by rw [encStep_ready_eq, if_pos hc], ?_⟩
    intro hp
    refine ⟨by rw [encStep_packet_eq, if_pos hc, xor_one_and_one s.packet hp], ?_⟩
    rw [encStep_packets_eq]
    exact slotGet_slotSet_self _ _ _ hp
  · intro hc
    exact ⟨by rw [encStep_ready_eq, if_neg hc], by rw [encStep_packet_eq, if_neg hc]⟩
  · intro hp
    by_cases hc : maskedNot li.r31 limit_pru_mask = 0
    · rw [limitStep_of_no_trigger ls li hc]
      exact hp
    · rw [limitStep_packet_eq ls li hc, xor_one_and_one ls.packet hp]
      omega
  · intro hp hr
    by_cases hc : maskedNot li.r31 limit_pru_mask = 0
    · rw [limitStep_of_no_trigger ls li hc]
      exact hr
    · rw [limitStep_ready_eq ls li hc]
      omega
  · intro hc
    refine ⟨limitStep_ready_eq ls li hc, ?_⟩
    intro hp
    refine ⟨by rw [limitStep_packet_eq ls li hc, xor_one_and_one ls.packet hp], ?_⟩
    rw [limitStep_packets_eq ls li hc]
    exact slotGet_slotSet_self _ _ _ hp

/-- A concrete encoder-producer state one sample short of completing
slot 0, and hardware inputs with no overflow pending. -/
def encSample : EncState :=
  { counter_overflow := 4
    encoder_ready := 0
    packets := ({ zeroEncoder with header := ENCODER_HEADER },
                { zeroEncoder with header := ENCODER_HEADER })
    packet := 0
    index := 119 }

/-- Hardware inputs for the witness: overflow pending at the check. -/
def encInputSample : EncInput :=
  { stsAtCheck := true, stsAtSample := false, cnt := 77, r31 := 0b101 }

/-- A concrete limit-producer state with slot 1 active. -/
def limitSample : LimitState :=
  { counter_overflow := 4
    limit_ready := 0
    packets := ({ zeroLimit with header := LIMIT_HEADER },
                { zeroLimit with header := LIMIT_HEADER })
    packet := 1 }

/-- Hardware inputs for the witness: switch 8 reads low (bit 8 of `__R31`
clear), no overflow pending. -/
def limitInputSample : LimitInput := { sts := false, cnt := 55, r31 := 0 }

/-- Witness for `producer_publish_protocol` at the concrete states above:
the encoder completion publishes `ready = 1` (slot 0) and flips to slot 1;
the limit publish sets `ready = 2` (slot 1) and flips to slot 0. -/
theorem producer_publish_protocol_witness :
    (encStep encSample encInputSample).encoder_ready = encSample.packet + 1 ∧
    (encStep encSample encInputSample).packet = 1 - encSample.packet ∧
    (limitStep limitSample limitInputSample).limit_ready = limitSample.packet + 1 ∧
    (limitStep limitSample limitInputSample).packet = 1 - limitSample.packet :=
  ⟨((producer_publish_protocol encSample encInputSample limitSample limitInputSample).1.2.2.1
      (by decide)).1,
   (((producer_publish_protocol encSample encInputSample limitSample limitInputSample).1.2.2.1
      (by decide)).2 (by decide)).1,
   ((producer_publish_protocol encSample encInputSample limitSample limitInputSample).2.2.2.1
      (by decide)).1,
   (((producer_publish_protocol encSample encInputSample limitSample limitInputSample).2.2.2.1
      (by decide)).2 (by decide)).1⟩

/-! ## Overflow-counter maintenance and folding (C4) -/

theorem slotGetD_slotSet_self [Inhabited α] (p : α × α) (i : Nat) (v : α) (h : i ≤ 1) :
    slotGetD (slotSet p i v) i = v := by
  unfold slotGetD
  rw [slotGet_slotSet_self _ _ _ h]
  rfl

/-- A limit-producer state and inputs in which the hardware overflow flag
is set while a switch event triggers. -/
def limitOverflowState : LimitState :=
  { counter_overflow := 0, limit_ready := 0, packets := (zeroLimit, zeroLimit), packet := 0 }

/-- Inputs with the IEP overflow status bit set and all monitored switch
inputs reading low. -/
def limitOverflowInput : LimitInput := { sts := true, cnt := 5, r31 := 0 }

/-- C4 counterexample: the Limit producer observes the hardware clock wrap
(the overflow status bit it reads is set, and it folds `counter + 1` into
the recorded sample) yet does NOT increment the shared overflow counter —
`LimitSwitches.c` never writes `*counter_overflow`, so the claim that
*every* producer increments it itself is false. -/
theorem limit_no_overflow_increment :
    limitOverflowInput.sts = true ∧
    (limitStep limitOverflowState limitOverflowInput).packets.1.clock_overflow =
      limitOverflowState.counter_overflow + 1 ∧
    (limitStep limitOverflowState limitOverflowInput).counter_overflow ≠
      limitOverflowState.counter_overflow + 1 := by
  decide

/-- C4 (amended): the Encoder producer increments the shared
`overflow_counter` itself whenever it observes the hardware clock wrap, and
both producers fold the in-progress overflow state (the counter plus the
still-pending status bit) into each sample's per-sample overflow field —
so if the counter wraps between tick N and tick N+1 inside a single
encoder buffer, the overflow field recorded at tick N+1 carries the
incremented value; the Limit producer reads the shared counter but never
writes it. -/
theorem overflow_folding (s : EncState) (inp : EncInput)
    (ls : LimitState) (li : LimitInput) :
    ((encStep s inp).counter_overflow =
       if inp.stsAtCheck then s.counter_overflow + 1 else s.counter_overflow) ∧
    (s.packet ≤ 1 → s.index < (slotGetD s.packets s.packet).clock_overflow.length →
      (slotGetD (encStep s inp).packets s.packet).clock_overflow[s.index]? =
        some ((encStep s inp).counter_overflow + (if inp.stsAtSample then 1 else 0))) ∧
    ((limitStep ls li).counter_overflow = ls.counter_overflow) ∧
    (maskedNot li.r31 limit_pru_mask ≠ 0 → ls.packet ≤ 1 →
      (slotGetD (limitStep ls li).packets ls.packet).clock_overflow =
        ls.counter_overflow + (if li.sts then 1 else 0)) := by
  refine ⟨encStep_counter s inp, ?_, limitStep_counter ls li, ?_⟩
  · intro hp hlen
    rw [encStep_packets_eq, slotGetD_slotSet_self _ _ _ hp, encStep_counter]
    simp only [writeSample]
    exact List.getElem?_set_eq_of_lt _ hlen
  · intro hc hp
    rw [limitStep_packets_eq ls li hc, slotGetD_slotSet_self _ _ _ hp]

/-- Witness for `overflow_folding` at concrete states: the encoder step at
`encSample`/`encInputSample` (overflow observed at the check) increments
the shared counter and records the incremented value in the sample's
overflow field; the limit step leaves the shared counter untouched while
folding the pending bit. -/
theorem overflow_folding_witness :
    (encStep encSample encInputSample).counter_overflow =
      (if encInputSample.stsAtCheck then encSample.counter_overflow + 1
        else encSample.counter_overflow) ∧
    (slotGetD (encStep encSample encInputSample).packets encSample.packet).clock_overflow[encSample.index]? =
      some ((encStep encSample encInputSample).counter_overflow +
        (if encInputSample.stsAtSample then 1 else 0)) ∧
    (limitStep limitOverflowState limitOverflowInput).counter_overflow =
      limitOverflowState.counter_overflow ∧
    (slotGetD (limitStep limitOverflowState limitOverflowInput).packets limitOverflowState.packet).clock_overflow =
      limitOverflowState.counter_overflow + (if limitOverflowInput.sts then 1 else 0) :=
  ⟨(overflow_folding encSample encInputSample limitOverflowState limitOverflowInput).1,
   (overflow_folding encSample encInputSample limitOverflowState limitOverflowInput).2.1
     (by decide) (by decide),
   (overflow_folding encSample encInputSample limitOverflowState limitOverflowInput).2.2.1,
   (overflow_folding encSample encInputSample limitOverflowState limitOverflowInput).2.2.2
     (by decide) (by decide)⟩

/-! ## Stop sequencing (C6) -/

theorem loopIter_batchEmpty (t : Int) (st : LoopState) (hb : BatchEmpty st.h) :
    BatchEmpty (loopIter t st).h := by
  obtain ⟨he, hl, hr⟩ := hb
  unfold loopIter BatchEmpty
  refine ⟨?_, ?_, ?_⟩
  · have hx : (drainError (drainLimit (drainEncoder t st))).h.encoder_index =
        if st.s.encoder_ready ≠ 0 then 1 else 0 := by
      rw [drainError_h_encIdx, drainLimit_h_encIdx, drainEncoder_encIdx, he]
    rw [timeoutCheck_h_encIdx, dispatchError_h_encIdx, dispatchLimit_h_encIdx,
      dispatchEncoder_encIdx, hx]
    by_cases hc : st.s.encoder_ready ≠ 0 <;> simp [hc, ENCODER_PACKETS_TO_SEND]
  · have hx : (dispatchEncoder (drainError (drainLimit (drainEncoder t st)))).h.limit_index =
        if (drainEncoder t st).s.limit_ready ≠ 0 then 1 else 0 := by
      rw [dispatchEncoder_h_limitIdx, drainError_h_limitIdx, drainLimit_h_limitIdx,
        drainEncoder_h_limitIdx, hl]
    rw [timeoutCheck_h_limitIdx, dispatchError_h_limitIdx, dispatchLimit_limitIdx, hx]
    by_cases hc : (drainEncoder t st).s.limit_ready ≠ 0 <;> simp [hc, LIMIT_PACKETS_TO_SEND]
  · have hx : (dispatchLimit (dispatchEncoder (drainError (drainLimit (drainEncoder t st))))).h.error_index =
        if (drainLimit (drainEncoder t st)).s.error_ready ≠ 0 then 1 else 0 := by
      rw [dispatchLimit_h_errorIdx, dispatchEncoder_h_errorIdx, drainError_h_errorIdx,
        drainLimit_h_errorIdx, drainEncoder_h_errorIdx, hr]
    rw [timeoutCheck_h_errorIdx, dispatchError_errorIdx, hx]
    by_cases hc : (drainLimit (drainEncoder t st)).s.error_ready ≠ 0 <;>
      simp [hc, ERROR_PACKETS_TO_SEND]

/-- C6: the acquisition loop exits only on observing the run flag equal to
1; on exit the teardown sequence begins with the wait for the producers'
completion interrupt, strictly before either PRU is disabled; and — since
every drain is dispatched within its own iteration (batch size 1) — a loop
entered with empty send-batches exits with empty send-batches: no
partially filled batch from an in-flight drain remains undispatched. -/
theorem acquisition_stop_sequencing (env : List ((SharedRegion → SharedRegion) × Int))
    (st st' : LoopState) (hrun : runLoop env st = some st') (hb : BatchEmpty st.h) :
    st'.s.on_flag = 1 ∧
    BatchEmpty st'.h ∧
    teardownOf st'.s =
      [TeardownAction.waitEvent, TeardownAction.disablePRU 1,
       TeardownAction.disablePRU 0, TeardownAction.exitPruss] ∧
    (teardownOf st'.s).head? = some TeardownAction.waitEvent := by
  induction env generalizing st with
  | nil => simp [runLoop] at hrun
  | cons p rest ih =>
    obtain ⟨f, t⟩ := p
    rw [runLoop] at hrun
    by_cases hc : (f st.s).on_flag = 1
    · rw [if_pos hc] at hrun
      obtain rfl := Option.some.inj hrun
      refine ⟨hc, hb, ?_, ?_⟩
      · unfold teardownOf
        simp [hc]
      · unfold teardownOf
        simp [hc]
    · rw [if_neg hc] at hrun
      exact ih (loopIter t { st with s := f st.s }) hrun
        (loopIter_batchEmpty t { st with s := f st.s } hb)

/-- An environment trace whose first iteration sets the run flag. -/
def stopEnv : List ((SharedRegion → SharedRegion) × Int) :=
  [(fun s => { s with on_flag := 1 }, 0)]

/-- The loop state observed at exit for `stopEnv` from `staleSample`. -/
def stopFinal : LoopState :=
  { staleSample with s := { staleSample.s with on_flag := 1 } }

/-- Witness for `acquisition_stop_sequencing` on the concrete trace
`stopEnv`: the loop exits with the run flag observed at 1, empty batches,
and the teardown starting with the completion-interrupt wait. -/
theorem acquisition_stop_sequencing_witness :
    stopFinal.s.on_flag = 1 ∧
    BatchEmpty stopFinal.h ∧
    teardownOf stopFinal.s =
      [TeardownAction.waitEvent, TeardownAction.disablePRU 1,
       TeardownAction.disablePRU 0, TeardownAction.exitPruss] ∧
    (teardownOf stopFinal.s).head? = some TeardownAction.waitEvent :=
  acquisition_stop_sequencing stopEnv staleSample stopFinal rfl (by decide)
